import Mathlib

/-!
Shallow embedding of the homework-status polling bot (homework.py and
exceptions/errors.py), together with theorems about its behavior.

Python values decoded from JSON are modelled by `JValue`; Python
exceptions raised by the program are modelled by `PyError`.  The network
and the notification channel are modelled as explicit inputs to each
loop iteration (`NetResult`, `IterInput.sendOk`), and module-level
mutable state (the PAYLOAD dict) as an explicit `Globals` value threaded
through `get_api_answer`.
-/

namespace HomeworkBot

/-- A Python value as decoded from JSON (plus None / bool, which json
decoding can produce). -/
inductive JValue where
  | jnull
  | jbool (b : Bool)
  | jint (n : Int)
  | jstr (s : String)
  | jarr (xs : List JValue)
  | jobj (fields : List (String × JValue))

/-- Exceptions the embedded code can raise.  `apiException m` carries the
`message` argument of `APIException.__init__`; `tokenError n` carries the
token name given to `TokenError.__init__`. -/
inductive PyError where
  | keyError (m : String)
  | typeError (m : String)
  | attributeError (m : String)
  | indexError (m : String)
  | apiException (m : String)
  | tokenError (name : String)

/-- Python type name of a value, as `type(x).__name__` produces it. -/
def pyTypeName : JValue → String
  | .jnull => "NoneType"
  | .jbool _ => "bool"
  | .jint _ => "int"
  | .jstr _ => "str"
  | .jarr _ => "list"
  | .jobj _ => "dict"

mutual

/-- Python `repr` of a value (str gets quotes, containers recurse). -/
def pyRepr : JValue → String
  | .jnull => "None"
  | .jbool true => "True"
  | .jbool false => "False"
  | .jint n => toString n
  | .jstr s => "\x27" ++ s ++ "\x27"
  | .jarr xs => "[" ++ pyReprElems xs ++ "]"
  | .jobj fs => "\x7b" ++ pyReprFields fs ++ "\x7d"

/-- Comma-separated reprs of list elements. -/
def pyReprElems : List JValue → String
  | [] => ""
  | [x] => pyRepr x
  | x :: y :: rest => pyRepr x ++ ", " ++ pyReprElems (y :: rest)

/-- Comma-separated reprs of dict entries. -/
def pyReprFields : List (String × JValue) → String
  | [] => ""
  | [(k, v)] => "\x27" ++ k ++ "\x27: " ++ pyRepr v
  | (k, v) :: p :: rest =>
      "\x27" ++ k ++ "\x27: " ++ pyRepr v ++ ", " ++ pyReprFields (p :: rest)

end

/-- Python `str` of a value, as an f-string formats it. -/
def pyStr : JValue → String
  | .jstr s => s
  | v => pyRepr v

/-- Python `str` of an exception: `KeyError` reprs its argument,
`APIException.__init__` prefixes its message, `TokenError.__init__`
builds its message from the token name. -/
def pyStrOfErr : PyError → String
  | .keyError m => "\x27" ++ m ++ "\x27"
  | .typeError m => m
  | .attributeError m => m
  | .indexError m => m
  | .apiException m => "Ошибка обращения к эндпоинту: " ++ m
  | .tokenError n => "Ошибка доступа к токену " ++ n ++ "."

/-- Whether the value is a dict. -/
def JValue.isObj : JValue → Bool
  | .jobj _ => true
  | _ => false

/-- Whether the value is a list. -/
def JValue.isArr : JValue → Bool
  | .jarr _ => true
  | _ => false

/-- Whether the value is a str. -/
def JValue.isStr : JValue → Bool
  | .jstr _ => true
  | _ => false

/-- Whether the value is None. -/
def JValue.isNull : JValue → Bool
  | .jnull => true
  | _ => false

/-- A string value is never None. -/
theorem JValue.isNull_jstr (s : String) : (JValue.jstr s).isNull = false := rfl

/-- The elements of a list value (empty for non-lists). -/
def JValue.arrElems : JValue → List JValue
  | .jarr xs => xs
  | _ => []

/-- Python truthiness, as `if x:` evaluates it. -/
def pyTruthy : JValue → Bool
  | .jnull => false
  | .jbool b => b
  | .jint n => n != 0
  | .jstr s => s != ""
  | .jarr xs => !xs.isEmpty
  | .jobj fs => !fs.isEmpty

/-- The Python `in` operator with a string on the left: key membership
for dicts, element membership for lists, substring test for strings, and
a TypeError for non-containers. -/
def pyContains (container : JValue) (k : String) : Except PyError Bool :=
  match container with
  | .jobj fs => .ok (fs.lookup k).isSome
  | .jarr xs =>
      .ok (xs.any fun v => match v with | .jstr s => s == k | _ => false)
  | .jstr s =>
      .ok (if k == "" then true else (s.splitOn k).length > 1)
  | other =>
      .error (.typeError
        ("argument of type \x27" ++ pyTypeName other ++ "\x27 is not iterable"))

/-- The Python `.get(k)` method call: on a dict it returns the value or
None; on anything else the attribute access itself raises
AttributeError. -/
def pyDictGet (v : JValue) (k : String) : Except PyError JValue :=
  match v with
  | .jobj fs => .ok ((fs.lookup k).getD .jnull)
  | other =>
      .error (.attributeError
        ("\x27" ++ pyTypeName other ++ "\x27 object has no attribute \x27get\x27"))

/-- Python subscription `v[k]` with a string key: dict lookup (KeyError
when absent), TypeError on lists, strings and other non-dicts. -/
def pySubscriptStr (v : JValue) (k : String) : Except PyError JValue :=
  match v with
  | .jobj fs =>
      match fs.lookup k with
      | some x => .ok x
      | none => .error (.keyError k)
  | .jarr _ => .error (.typeError "list indices must be integers or slices, not str")
  | .jstr _ => .error (.typeError "string indices must be integers")
  | other =>
      .error (.typeError
        ("\x27" ++ pyTypeName other ++ "\x27 object is not subscriptable"))

/-- Python subscription `v[0]`. -/
def pySubscriptZero (v : JValue) : Except PyError JValue :=
  match v with
  | .jarr (x :: _) => .ok x
  | .jarr [] => .error (.indexError "list index out of range")
  | .jstr s =>
      match s.data with
      | c :: _ => .ok (.jstr (String.mk [c]))
      | [] => .error (.indexError "string index out of range")
  | .jobj _ => .error (.keyError "0")
  | other =>
      .error (.typeError
        ("\x27" ++ pyTypeName other ++ "\x27 object is not subscriptable"))

/-- `RETRY_PERIOD` constant of homework.py. -/
def RETRY_PERIOD : Nat := 10

/-- The `HOMEWORK_VERDICTS` dict of homework.py, as an ordered
association list. -/
def HOMEWORK_VERDICTS : List (String × String) :=
  [("approved", "Работа проверена: ревьюеру всё понравилось. Ура!"),
   ("reviewing", "Работа взята на проверку ревьюером."),
   ("rejected", "Работа проверена: у ревьюера есть замечания.")]

/-- Python membership test of a value in a string-keyed dict, as
`status not in HOMEWORK_VERDICTS` performs it: TypeError for unhashable
values, otherwise key lookup (non-string hashables are never keys of the
string-keyed dict). -/
def pyInStrDict (v : JValue) (d : List (String × String)) : Except PyError Bool :=
  match v with
  | .jstr s => .ok (d.lookup s).isSome
  | .jarr _ => .error (.typeError "unhashable type: \x27list\x27")
  | .jobj _ => .error (.typeError "unhashable type: \x27dict\x27")
  | _ => .ok false

/-- The `HOMEWORK_VERDICTS.get(status)` expression as formatted into the
verdict message (Python .get returns None when absent, which an f-string
renders as the text None). -/
def verdictGet (status : JValue) : String :=
  match status with
  | .jstr s =>
      match HOMEWORK_VERDICTS.lookup s with
      | some t => t
      | none => "None"
  | _ => "None"

/-- The three environment credentials read at module load
(PRACTICUM_TOKEN, TELEGRAM_TOKEN, TELEGRAM_CHAT_ID); `none` models an
unset variable. -/
structure Env where
  practicum_token : Option String
  telegram_token : Option String
  telegram_chat_id : Option String

/-- `check_tokens` of homework.py: iterates the token dict in insertion
order and raises `TokenError(name)` at the first token whose value is
None. -/
def check_tokens (env : Env) : Except PyError Unit :=
  if env.practicum_token.isNone then .error (.tokenError "PRACTICUM_TOKEN")
  else if env.telegram_token.isNone then .error (.tokenError "TELEGRAM_TOKEN")
  else if env.telegram_chat_id.isNone then .error (.tokenError "TELEGRAM_CHAT_ID")
  else .ok ()

/-- The module-level mutable state touched by the program: the PAYLOAD
dict of homework.py, whose single entry is keyed by from_date. -/
structure Globals where
  payload_from_date : Int
deriving DecidableEq

/-- Outcome of the `requests.get` call and of decoding its body:
either the call raised (`exc` carries str of the exception), or it
returned a status code together with the result of `.json()` (`.error`
carries str of the JSONDecodeError). -/
inductive NetResult where
  | exc (msg : String)
  | resp (status_code : Nat) (body : Except String JValue)

/-- `get_api_answer` of homework.py.  It first mutates
`PAYLOAD[from_date] = timestamp`.  A transport failure or a non-200
status both surface as the APIException raised by the
`except Exception` handler of the first try block (the non-200 case
first raises an inner APIException that the same handler wraps); a body
that fails to decode surfaces as the JSON-decoding APIException of the
second try block. -/
def get_api_answer (timestamp : Int) (_g : Globals) (net : NetResult) :
    Globals × Except PyError JValue :=
  let g2 : Globals := { payload_from_date := timestamp }
  match net with
  | .exc m => (g2, .error (.apiException ("Нет доступа к API: " ++ m ++ ".")))
  | .resp code body =>
      if code != 200 then
        (g2, .error (.apiException ("Нет доступа к API: " ++
          pyStrOfErr (.apiException ("Ошибка ответа от API: " ++ toString code)) ++ ".")))
      else
        match body with
        | .error m => (g2, .error (.apiException ("Ошибка декодирования JSON: " ++ m)))
        | .ok v => (g2, .ok v)

/-- The `for homework in homeworks:` loop inside `check_response`.  The
first argument is the `homeworks` variable itself (a list value), which
the body subscripts with string keys — exactly as the source does. -/
def check_hw_loop (homeworks : JValue) : List JValue → Except PyError Unit
  | [] => .ok ()
  | homework :: rest =>
      match pyContains homework "lesson_name" with
      | .error e => .error e
      | .ok c1 =>
        if c1 then
          match pyContains homework "status" with
          | .error e => .error e
          | .ok c2 =>
            if c2 then
              match pySubscriptStr homeworks "lesson_name" with
              | .error e => .error e
              | .ok v1 =>
                if v1.isStr then
                  match pySubscriptStr homeworks "status" with
                  | .error e => .error e
                  | .ok v2 =>
                    if v2.isStr then check_hw_loop homeworks rest
                    else .error (.typeError "status не ожидаемого str типа.")
                else .error (.typeError "lessons_name не ожидаемого str типа.")
            else .error (.keyError "не найден ключ status.")
        else .error (.keyError "не найден ключ lessons_name.")

/-- Body of the try block of `check_response`: type and key checks that
raise TypeError / KeyError, then the per-homework loop, and finally
`return homeworks` (the list, not the response dict). -/
def check_response_inner (response : JValue) : Except PyError JValue :=
  if response.isObj then
    match pyContains response "homeworks" with
    | .error e => .error e
    | .ok c =>
      if c then
        match pyDictGet response "homeworks" with
        | .error e => .error e
        | .ok homeworks =>
          if homeworks.isArr then
            if pyTruthy homeworks then
              match check_hw_loop homeworks homeworks.arrElems with
              | .error e => .error e
              | .ok _ => .ok homeworks
            else .ok homeworks
          else
            .error (.typeError ("получен объект " ++ pyTypeName response ++
              " типа вместо ожидаемого типа list."))
      else .error (.keyError "ключ homeworks не найден.")
  else
    .error (.typeError ("получен объект " ++ pyTypeName response ++
      " типа вместо ожидаемого типа dict."))

/-- `check_response` of homework.py: the try body, with KeyError and
TypeError caught and re-raised as an APIException wrapping str of the
original exception. -/
def check_response (response : JValue) : Except PyError JValue :=
  match check_response_inner response with
  | .ok v => .ok v
  | .error e =>
      match e with
      | .keyError m =>
          .error (.apiException ("Ошибка при проверке формата ответа API: " ++
            pyStrOfErr (.keyError m) ++ "."))
      | .typeError m =>
          .error (.apiException ("Ошибка при проверке формата ответа API: " ++
            pyStrOfErr (.typeError m) ++ "."))
      | other => .error other

/-- Body of the try block of `parse_status`: reads lesson_name and
status with `.get`, raises an APIException when either is None or when
the status is outside HOMEWORK_VERDICTS, and otherwise formats the
verdict message. -/
def parse_status_inner (homework : JValue) : Except PyError String :=
  match pyDictGet homework "lesson_name" with
  | .error e => .error e
  | .ok homework_name =>
    if homework_name.isNull then
      .error (.apiException "Инфо домашней работы не содержит ее имени.")
    else
      match pyDictGet homework "status" with
      | .error e => .error e
      | .ok status =>
        if status.isNull then
          .error (.apiException "Не получен статус домашней работы.")
        else
          match pyInStrDict status HOMEWORK_VERDICTS with
          | .error e => .error e
          | .ok inDict =>
            if inDict then
              .ok ("Изменился статус проверки работы \"" ++ pyStr homework_name ++
                "\". " ++ verdictGet status)
            else
              .error (.apiException ("Неизвестный статус домашней работы: " ++
                pyStr status ++ "."))

/-- `parse_status` of homework.py: the try body, with every exception
caught and re-raised as an APIException wrapping str of the original
exception. -/
def parse_status (homework : JValue) : Except PyError String :=
  match parse_status_inner homework with
  | .ok m => .ok m
  | .error e =>
      .error (.apiException ("Ошибка при получении инфо о домашней работе: " ++
        pyStrOfErr e ++ "."))

/-- `send_message` of homework.py: attempts the telegram send and
swallows any exception, logging instead.  `sendOk` models whether
`bot.send_message` succeeds; the first component is the list of
messages actually delivered, the second the exception escaping the
function (always none, by the try/except). -/
def send_message (sendOk : Bool) (message : String) : List String × Option PyError :=
  if sendOk then ([message], none) else ([], none)

/-- Local state of `main`: the `timestamp` and `prev_verdict`
variables. -/
structure BotState where
  timestamp : Int
  prev_verdict : String
deriving DecidableEq

/-- Lines 237-243 of homework.py: when the new verdict differs from the
previous one, call `send_message` and then overwrite `prev_verdict` and
`timestamp`; otherwise only log a warning.  Returns the updated state,
the delivered messages, and the exception escaping the fragment. -/
def notify_branch (st : BotState) (new_timestamp : Int) (sendOk : Bool)
    (new_verdict : String) : BotState × List String × Option PyError :=
  if new_verdict != st.prev_verdict then
    match send_message sendOk new_verdict with
    | (sent, some e) => (st, sent, some e)
    | (sent, none) =>
        ({ timestamp := new_timestamp, prev_verdict := new_verdict }, sent, none)
  else (st, [], none)

/-- Per-iteration inputs from the outside world: the wall clock read by
`int(time.time())`, the network outcome, and whether the telegram send
would succeed. -/
structure IterInput where
  now : Int
  net : NetResult
  sendOk : Bool

/-- Result of running the try body of one loop iteration: the state and
globals afterwards, the delivered messages, and the exception reaching
the except clauses (none when the body completed). -/
structure BodyResult where
  state : BotState
  globals : Globals
  sent : List String
  err : Option PyError

/-- The try body of the `while True:` loop of `main` (lines 224-247):
read the clock, call `get_api_answer`, validate with `check_response`,
call `.get(homeworks)` on its result, and when that value is truthy
parse the first entry and run the notification branch. -/
def iter_body (st : BotState) (g : Globals) (inp : IterInput) : BodyResult :=
  let new_timestamp := inp.now
  let gapi := get_api_answer st.timestamp g inp.net
  let g2 := gapi.1
  match gapi.2 with
  | .error e => ⟨st, g2, [], some e⟩
  | .ok api_answer =>
    match check_response api_answer with
    | .error e => ⟨st, g2, [], some e⟩
    | .ok cr =>
      match pyDictGet cr "homeworks" with
      | .error e => ⟨st, g2, [], some e⟩
      | .ok homeworks =>
        if pyTruthy homeworks then
          match pySubscriptZero homeworks with
          | .error e => ⟨st, g2, [], some e⟩
          | .ok hw0 =>
            match parse_status hw0 with
            | .error e => ⟨st, g2, [], some e⟩
            | .ok new_verdict =>
              let r := notify_branch st new_timestamp inp.sendOk new_verdict
              ⟨r.1, g2, r.2.1, r.2.2⟩
        else ⟨st, g2, [], none⟩

/-- Whether the except clauses of the loop catch the exception: the
first handler catches APIException, the second catches every Exception
subclass — which every modelled error is. -/
def exceptionCaught : PyError → Bool
  | .apiException _ => true
  | .keyError _ => true
  | .typeError _ => true
  | .attributeError _ => true
  | .indexError _ => true
  | .tokenError _ => true

/-- Result of one full loop iteration including the except and finally
clauses. -/
structure IterResult where
  state : BotState
  globals : Globals
  sent : List String
  sleptFor : Nat
  netCalls : Nat

/-- One full iteration of the `while True:` loop: the try body, the
except clauses (which log and continue), and the finally clause (which
sleeps RETRY_PERIOD).  `none` models an exception escaping the loop
body, which would crash the process.  Each iteration performs exactly
one network attempt. -/
def run_iteration (st : BotState) (g : Globals) (inp : IterInput) :
    Option IterResult :=
  let b := iter_body st g inp
  match b.err with
  | none => some ⟨b.state, b.globals, b.sent, RETRY_PERIOD, 1⟩
  | some e =>
      if exceptionCaught e then some ⟨b.state, b.globals, b.sent, RETRY_PERIOD, 1⟩
      else none

/-- `n` successive iterations of the loop, threading state and globals;
returns the final state, the final globals and the total number of
network attempts, or `none` if any iteration let an exception escape. -/
def run_loop : Nat → BotState → Globals → (Nat → IterInput) →
    Option (BotState × Globals × Nat)
  | 0, st, g, _ => some (st, g, 0)
  | Nat.succ n, st, g, inps =>
      match run_iteration st g (inps n) with
      | none => none
      | some r =>
          match run_loop n r.state r.globals inps with
          | none => none
          | some (st2, g2, calls) => some (st2, g2, r.netCalls + calls)

/-- Observable outcome of running `main` for a bounded number of loop
iterations. -/
structure MainTrace where
  exitCode : Option Nat
  netCalls : Nat
  iterations : Nat

/-- `main` of homework.py, run for `n` loop iterations: `check_tokens`
first (a TokenError is logged and the process exits via
`sys.exit(string)`, which exits with status 1), then the Bot
construction (`botInitOk` models whether it succeeds; on failure the
generic except clause also exits with status 1), then the loop started
at timestamp 0 and empty prev_verdict.  Exiting happens before any
network call. -/
def main_run (env : Env) (botInitOk : Bool) (g0 : Globals) (n : Nat)
    (inps : Nat → IterInput) : MainTrace :=
  match check_tokens env with
  | .error _ => { exitCode := some 1, netCalls := 0, iterations := 0 }
  | .ok _ =>
      if botInitOk then
        match run_loop n { timestamp := 0, prev_verdict := "" } g0 inps with
        | some (_, _, calls) => { exitCode := none, netCalls := calls, iterations := n }
        | none => { exitCode := some 1, netCalls := n, iterations := n }
      else { exitCode := some 1, netCalls := 0, iterations := 0 }

/-! ## Helper lemmas shared by the claim theorems -/

/-- A value with `isArr` set is a list value. -/
theorem isArr_iff (v : JValue) : v.isArr = true ↔ ∃ xs, v = .jarr xs := by
  cases v <;> simp [JValue.isArr]

/-- When the try body of `check_response` returns normally, the returned
value is the homeworks list (it passed the isinstance-list check). -/
theorem check_response_inner_ok_isArr (r v : JValue)
    (h : check_response_inner r = .ok v) : v.isArr = true := by
  unfold check_response_inner at h
  repeat' split at h
  all_goals first
    | exact Except.noConfusion h
    | simp_all

/-- When `check_response` returns normally, it returns a list value —
not the response dict. -/
theorem check_response_ok_isArr (r v : JValue)
    (h : check_response r = .ok v) : v.isArr = true := by
  unfold check_response at h
  split at h
  · rename_i w hw
    cases h
    exact check_response_inner_ok_isArr r v hw
  · split at h <;> cases h

/-- The try body of a loop iteration never changes the state and never
delivers a message: whatever the network returns, either
`get_api_answer` or `check_response` raises, or `check_response` returns
the homeworks list and the subsequent `.get(homeworks)` attribute access
on that list raises AttributeError — all before the notification
branch. -/
theorem iter_body_inert (st : BotState) (g : Globals) (inp : IterInput) :
    (iter_body st g inp).state = st ∧ (iter_body st g inp).sent = [] := by
  unfold iter_body
  cases hapi : (get_api_answer st.timestamp g inp.net).2 with
  | error e => simp [hapi]
  | ok a =>
    simp only [hapi]
    cases hc : check_response a with
    | error e => simp [hc]
    | ok cr =>
      obtain ⟨xs, rfl⟩ := (isArr_iff cr).mp (check_response_ok_isArr a cr hc)
      simp [hc, pyDictGet]

/-- Both except clauses together catch every modelled exception. -/
theorem exceptionCaught_true (e : PyError) : exceptionCaught e = true := by
  cases e <;> rfl

/-- A loop iteration always completes: the except clauses catch the
body's exception and the finally clause sleeps RETRY_PERIOD. -/
theorem run_iteration_eq (st : BotState) (g : Globals) (inp : IterInput) :
    run_iteration st g inp =
      some ⟨(iter_body st g inp).state, (iter_body st g inp).globals,
        (iter_body st g inp).sent, RETRY_PERIOD, 1⟩ := by
  unfold run_iteration
  cases h : (iter_body st g inp).err with
  | none => simp [h]
  | some e => simp [h, exceptionCaught_true]

/-- No bounded run of the loop ever lets an exception escape. -/
theorem run_loop_total (n : Nat) : ∀ (st : BotState) (g : Globals)
    (inps : Nat → IterInput), ∃ p, run_loop n st g inps = some p := by
  induction n with
  | zero => exact fun st g inps => ⟨(st, g, 0), rfl⟩
  | succ n ih =>
    intro st g inps
    unfold run_loop
    rw [run_iteration_eq]
    obtain ⟨p, hp⟩ :=
      ih (iter_body st g (inps n)).state (iter_body st g (inps n)).globals inps
    obtain ⟨st2, g2, calls⟩ := p
    dsimp only
    rw [hp]
    exact ⟨_, rfl⟩

/-- `check_tokens` raises a TokenError whenever one of the three
credentials is unset. -/
theorem check_tokens_missing (env : Env)
    (h : env.practicum_token = none ∨ env.telegram_token = none ∨
      env.telegram_chat_id = none) :
    ∃ e, check_tokens env = .error e := by
  unfold check_tokens
  rcases h with h | h | h
  · simp [h]
  · cases hp : env.practicum_token.isNone <;> simp [h, hp]
  · cases hp : env.practicum_token.isNone <;>
      cases ht : env.telegram_token.isNone <;> simp [h, hp, ht]

/-- The `for` loop of `check_response` fails on any non-empty homeworks
list whose first element is a dict: either a key is reported missing
(KeyError) or the subscription of the list itself with a string key
raises TypeError. -/
theorem check_hw_loop_head_obj (xs : List JValue) (hfs : List (String × JValue))
    (rest : List JValue) :
    (∃ m, check_hw_loop (.jarr xs) (.jobj hfs :: rest) = .error (.keyError m)) ∨
    (∃ m, check_hw_loop (.jarr xs) (.jobj hfs :: rest) = .error (.typeError m)) := by
  unfold check_hw_loop
  cases h1 : (hfs.lookup "lesson_name").isSome
  · exact Or.inl ⟨"не найден ключ lessons_name.", by simp [pyContains, h1]⟩
  · cases h2 : (hfs.lookup "status").isSome
    · exact Or.inl ⟨"не найден ключ status.", by simp [pyContains, h1, h2]⟩
    · exact Or.inr ⟨"list indices must be integers or slices, not str",
        by simp [pyContains, h1, h2, pySubscriptStr]⟩

/-- `check_response` raises an APIException on every response whose
homeworks list is non-empty with a dict as first element. -/
theorem check_response_nonempty_obj (fields : List (String × JValue))
    (hw : JValue) (rest : List JValue)
    (hl : fields.lookup "homeworks" = some (.jarr (hw :: rest)))
    (hobj : hw.isObj = true) :
    ∃ m, check_response (.jobj fields) = .error (.apiException m) := by
  obtain ⟨hfs, rfl⟩ : ∃ fs, hw = .jobj fs := by
    cases hw <;> simp_all [JValue.isObj]
  have hinner : ∃ e, check_response_inner (.jobj fields) = .error e ∧
      ((∃ m, e = .keyError m) ∨ (∃ m, e = .typeError m)) := by
    unfold check_response_inner
    simp only [JValue.isObj, pyContains, hl, Option.isSome_some, if_true,
      pyDictGet, Option.getD_some, JValue.isArr, pyTruthy, JValue.arrElems,
      List.isEmpty_cons, Bool.not_false, ite_true]
    rcases check_hw_loop_head_obj (.jobj hfs :: rest) hfs rest with ⟨m, hm⟩ | ⟨m, hm⟩
    · rw [hm]; exact ⟨_, rfl, Or.inl ⟨m, rfl⟩⟩
    · rw [hm]; exact ⟨_, rfl, Or.inr ⟨m, rfl⟩⟩
  obtain ⟨e, he, hk⟩ := hinner
  unfold check_response
  rw [he]
  rcases hk with ⟨m, rfl⟩ | ⟨m, rfl⟩
  · exact ⟨_, rfl⟩
  · exact ⟨_, rfl⟩

/-! ## Claim theorems -/

/-- Claim C1 (code evaluated at the claimed scenario): at a validated
response with a non-empty homeworks array whose first entry yields a
fresh verdict ({homeworks: [{lesson_name: Task1, status: approved}],
current_date: 100}, previous verdict empty), the iteration sends no
notification at all and leaves the state at (0, empty): `check_response`
raises an APIException because it subscripts the homeworks list itself
with the string key lesson_name — contradicting the claim that exactly
one notification is sent and the checkpoint advances. -/
theorem homework_c1_update_sends_nothing :
    iter_body { timestamp := 0, prev_verdict := "" } { payload_from_date := 0 }
      { now := 100,
        net := .resp 200 (.ok (.jobj
          [("homeworks", .jarr [.jobj [("lesson_name", .jstr "Task1"),
            ("status", .jstr "approved")]]),
           ("current_date", .jint 100)])),
        sendOk := true } =
    { state := { timestamp := 0, prev_verdict := "" },
      globals := { payload_from_date := 0 },
      sent := [],
      err := some (.apiException
        "Ошибка при проверке формата ответа API: list indices must be integers or slices, not str.") } := rfl

/-- Claim C2: the loop body never reaches the notification call.
First conjunct: on every response whose homeworks value is a non-empty
list of dicts, `check_response` raises an APIException.  Second
conjunct: whenever `check_response` returns without raising, it returns
a list (the homeworks list), not the response dict, so the caller's
subsequent `.get(homeworks)` raises AttributeError.  Third conjunct:
consequently no iteration ever sends a notification or changes the
state. -/
theorem homework_c2_never_notifies :
    (∀ (fields : List (String × JValue)) (hws : List JValue),
        fields.lookup "homeworks" = some (.jarr hws) → hws ≠ [] →
        (∀ x ∈ hws, x.isObj = true) →
        ∃ m, check_response (.jobj fields) = .error (.apiException m)) ∧
    (∀ (r v : JValue), check_response r = .ok v → v.isArr = true) ∧
    (∀ (st : BotState) (g : Globals) (inp : IterInput),
        (iter_body st g inp).sent = [] ∧ (iter_body st g inp).state = st) := by
  refine ⟨?_, check_response_ok_isArr, ?_⟩
  · intro fields hws hl hne helems
    cases hws with
    | nil => exact absurd rfl hne
    | cons hw rest =>
        exact check_response_nonempty_obj fields hw rest hl (helems hw (by simp))
  · intro st g inp
    exact ⟨(iter_body_inert st g inp).2, (iter_body_inert st g inp).1⟩

/-- Witness for C2: at the concrete response {homeworks: [{lesson_name:
Task1, status: approved}], current_date: 100} the validator raises an
APIException. -/
theorem homework_c2_witness :
    ∃ m, check_response (.jobj
      [("homeworks", .jarr [.jobj [("lesson_name", .jstr "Task1"),
        ("status", .jstr "approved")]]),
       ("current_date", .jint 100)]) = .error (.apiException m) :=
  homework_c2_never_notifies.1
    [("homeworks", .jarr [.jobj [("lesson_name", .jstr "Task1"),
      ("status", .jstr "approved")]]),
     ("current_date", .jint 100)]
    [.jobj [("lesson_name", .jstr "Task1"), ("status", .jstr "approved")]]
    rfl (by simp) (by simp [JValue.isObj])

/-- Claim C3: on a valid response whose homeworks array is empty, the
iteration sends no notification and leaves the tracked timestamp
unchanged. -/
theorem homework_c3_empty_no_send (st : BotState) (g : Globals) (inp : IterInput)
    (fields : List (String × JValue))
    (_hnet : inp.net = .resp 200 (.ok (.jobj fields)))
    (_hl : fields.lookup "homeworks" = some (.jarr [])) :
    (iter_body st g inp).sent = [] ∧
    (iter_body st g inp).state.timestamp = st.timestamp := by
  refine ⟨(iter_body_inert st g inp).2, ?_⟩
  rw [(iter_body_inert st g inp).1]

/-- Witness for C3 at a concrete empty-homeworks response. -/
theorem homework_c3_witness :
    (iter_body { timestamp := 42, prev_verdict := "" } { payload_from_date := 0 }
      { now := 100,
        net := .resp 200 (.ok (.jobj [("homeworks", .jarr []),
          ("current_date", .jint 100)])),
        sendOk := true }).sent = [] ∧
    (iter_body { timestamp := 42, prev_verdict := "" } { payload_from_date := 0 }
      { now := 100,
        net := .resp 200 (.ok (.jobj [("homeworks", .jarr []),
          ("current_date", .jint 100)])),
        sendOk := true }).state.timestamp =
      ({ timestamp := 42, prev_verdict := "" } : BotState).timestamp :=
  homework_c3_empty_no_send _ _ _
    [("homeworks", .jarr []), ("current_date", .jint 100)] rfl rfl

/-- Claim C4: on an iteration whose first homework entry parses to the
same verdict message as the previously notified one, no new notification
is sent and the stored state (prev_verdict, timestamp) is unchanged. -/
theorem homework_c4_duplicate_no_send (st : BotState) (g : Globals)
    (inp : IterInput) (fields : List (String × JValue)) (hw0 : JValue)
    (rest : List JValue)
    (_hnet : inp.net = .resp 200 (.ok (.jobj fields)))
    (_hl : fields.lookup "homeworks" = some (.jarr (hw0 :: rest)))
    (_hps : parse_status hw0 = .ok st.prev_verdict) :
    (iter_body st g inp).sent = [] ∧ (iter_body st g inp).state = st :=
  ⟨(iter_body_inert st g inp).2, (iter_body_inert st g inp).1⟩

/-- Witness for C4: concrete iteration whose first homework entry parses
to exactly the previously notified verdict message. -/
theorem homework_c4_witness :
    (iter_body
      { timestamp := 0,
        prev_verdict := "Изменился статус проверки работы \"Task1\". Работа проверена: ревьюеру всё понравилось. Ура!" }
      { payload_from_date := 0 }
      { now := 100,
        net := .resp 200 (.ok (.jobj
          [("homeworks", .jarr [.jobj [("lesson_name", .jstr "Task1"),
            ("status", .jstr "approved")]]),
           ("current_date", .jint 100)])),
        sendOk := true }).sent = [] ∧
    (iter_body
      { timestamp := 0,
        prev_verdict := "Изменился статус проверки работы \"Task1\". Работа проверена: ревьюеру всё понравилось. Ура!" }
      { payload_from_date := 0 }
      { now := 100,
        net := .resp 200 (.ok (.jobj
          [("homeworks", .jarr [.jobj [("lesson_name", .jstr "Task1"),
            ("status", .jstr "approved")]]),
           ("current_date", .jint 100)])),
        sendOk := true }).state =
      { timestamp := 0,
        prev_verdict := "Изменился статус проверки работы \"Task1\". Работа проверена: ревьюеру всё понравилось. Ура!" } :=
  homework_c4_duplicate_no_send _ _ _
    [("homeworks", .jarr [.jobj [("lesson_name", .jstr "Task1"),
      ("status", .jstr "approved")]]),
     ("current_date", .jint 100)]
    (.jobj [("lesson_name", .jstr "Task1"), ("status", .jstr "approved")])
    [] rfl rfl rfl

/-- Counterexample for claim C5: the claim says `check_response` also
requires a current_date key typed as an integer, reported as an
APIException when missing; but the response {homeworks: []} with no
current_date key at all is accepted — `check_response` returns normally
(with the homeworks list). -/
theorem homework_c5_counterexample :
    check_response (.jobj [("homeworks", .jarr [])]) = .ok (.jarr []) := rfl

/-- Claim C5 as amended: the validator requires only the homeworks key,
typed as a list.  A missing key raises an APIException whose message
names the homeworks key; a wrong-typed value raises an APIException
reporting the expected list type (naming, due to a slip in the source,
the type of the whole response — always dict here — as the observed
kind); and current_date is never validated: a response containing only
an empty homeworks list is accepted. -/
theorem homework_c5_amended :
    (∀ fields : List (String × JValue), fields.lookup "homeworks" = none →
      check_response (.jobj fields) = .error (.apiException
        ("Ошибка при проверке формата ответа API: " ++
          ("\x27" ++ "ключ homeworks не найден." ++ "\x27") ++ "."))) ∧
    (∀ (fields : List (String × JValue)) (v : JValue),
      fields.lookup "homeworks" = some v → v.isArr = false →
      check_response (.jobj fields) = .error (.apiException
        ("Ошибка при проверке формата ответа API: " ++
          ("получен объект " ++ "dict" ++ " типа вместо ожидаемого типа list.") ++ "."))) ∧
    (∀ fields : List (String × JValue),
      fields.lookup "homeworks" = some (.jarr []) →
      check_response (.jobj fields) = .ok (.jarr [])) := by
  refine ⟨?_, ?_, ?_⟩
  · intro fields h
    unfold check_response check_response_inner
    simp [JValue.isObj, pyContains, h, pyStrOfErr]
  · intro fields v h hv
    unfold check_response check_response_inner
    simp [JValue.isObj, pyContains, h, pyDictGet, hv, pyTypeName, pyStrOfErr]
  · intro fields h
    unfold check_response check_response_inner
    simp [JValue.isObj, pyContains, h, pyDictGet, JValue.isArr, pyTruthy]

/-- Witness for C5 as amended: a response without the homeworks key is
rejected with the message naming the key. -/
theorem homework_c5_witness :
    check_response (.jobj [("current_date", .jint 100)]) = .error (.apiException
      ("Ошибка при проверке формата ответа API: " ++
        ("\x27" ++ "ключ homeworks не найден." ++ "\x27") ++ ".")) :=
  homework_c5_amended.1 [("current_date", .jint 100)] rfl

/-- Claim C6: for a homework record carrying an assignment name and a
string status outside the three-entry verdict vocabulary, `parse_status`
raises an APIException whose message embeds the unrecognized status
value (doubly wrapped by the re-raise in the except clause), and no loop
iteration ever modifies the tracked state. -/
theorem homework_c6_unknown_status (fields : List (String × JValue))
    (nv : JValue) (s : String)
    (hn : fields.lookup "lesson_name" = some nv) (hnn : nv.isNull = false)
    (hs : fields.lookup "status" = some (.jstr s))
    (hu : HOMEWORK_VERDICTS.lookup s = none) :
    parse_status (.jobj fields) = .error (.apiException
      ("Ошибка при получении инфо о домашней работе: " ++
        ("Ошибка обращения к эндпоинту: " ++
          ("Неизвестный статус домашней работы: " ++ s ++ ".")) ++ ".")) ∧
    (∀ (st : BotState) (g : Globals) (inp : IterInput),
      (iter_body st g inp).state = st) := by
  constructor
  · unfold parse_status parse_status_inner
    simp [pyDictGet, hn, hnn, hs, pyInStrDict, hu, pyStr, pyStrOfErr,
      JValue.isNull_jstr]
  · intro st g inp
    exact (iter_body_inert st g inp).1

/-- Witness for C6 at the record {lesson_name: Task1, status: archived}. -/
theorem homework_c6_witness :
    parse_status (.jobj [("lesson_name", .jstr "Task1"),
      ("status", .jstr "archived")]) = .error (.apiException
      ("Ошибка при получении инфо о домашней работе: " ++
        ("Ошибка обращения к эндпоинту: " ++
          ("Неизвестный статус домашней работы: " ++ "archived" ++ ".")) ++ ".")) ∧
    (∀ (st : BotState) (g : Globals) (inp : IterInput),
      (iter_body st g inp).state = st) :=
  homework_c6_unknown_status
    [("lesson_name", .jstr "Task1"), ("status", .jstr "archived")]
    (.jstr "Task1") "archived" rfl rfl rfl rfl

/-- Counterexample for claim C7: the claim says only the startup
credential check may terminate the process, but with all three
credentials present the process still exits (with status 1) when the
Bot construction at startup fails — termination not caused by the
credential check, which succeeds here. -/
theorem homework_c7_counterexample :
    (main_run { practicum_token := some "a",
                telegram_token := some "b",
                telegram_chat_id := some "c" }
      false { payload_from_date := 0 } 0
      (fun _ => { now := 0, net := .exc "boom", sendOk := true })).exitCode = some 1 ∧
    check_tokens { practicum_token := some "a",
                   telegram_token := some "b",
                   telegram_chat_id := some "c" } = .ok () := ⟨rfl, rfl⟩

/-- Claim C7 as amended: every error raised within a loop iteration is
caught inside the loop body; the iteration always completes, sleeping
the fixed RETRY_PERIOD, and any bounded number of iterations runs to
completion.  The process can terminate only at startup: if `main`
exits, either the credential check failed or the notification-client
construction failed. -/
theorem homework_c7_amended :
    (∀ (st : BotState) (g : Globals) (inp : IterInput),
      ∃ r, run_iteration st g inp = some r ∧ r.sleptFor = RETRY_PERIOD) ∧
    (∀ (n : Nat) (st : BotState) (g : Globals) (inps : Nat → IterInput),
      ∃ p, run_loop n st g inps = some p) ∧
    (∀ (env : Env) (b : Bool) (g0 : Globals) (n : Nat) (inps : Nat → IterInput),
      (main_run env b g0 n inps).exitCode.isSome = true →
      check_tokens env ≠ .ok () ∨ b = false) := by
  refine ⟨?_, ?_, ?_⟩
  · intro st g inp
    exact ⟨_, run_iteration_eq st g inp, rfl⟩
  · intro n st g inps
    exact run_loop_total n st g inps
  · intro env b g0 n inps h
    cases hc : check_tokens env with
    | error e => exact Or.inl (by simp [hc])
    | ok u =>
      cases b with
      | false => exact Or.inr rfl
      | true =>
        exfalso
        unfold main_run at h
        rw [hc] at h
        obtain ⟨p, hp⟩ :=
          run_loop_total n { timestamp := 0, prev_verdict := "" } g0 inps
        obtain ⟨st2, g2, calls⟩ := p
        dsimp only at h
        rw [hp] at h
        simp at h

/-- Witness for C7 as amended: at an environment whose first credential
is unset, the process exit is explained by the failing credential
check. -/
theorem homework_c7_witness :
    check_tokens { practicum_token := none,
                   telegram_token := some "b",
                   telegram_chat_id := some "c" } ≠ .ok () ∨ true = false :=
  homework_c7_amended.2.2
    { practicum_token := none,
      telegram_token := some "b",
      telegram_chat_id := some "c" }
    true { payload_from_date := 0 } 3
    (fun _ => { now := 0, net := .exc "boom", sendOk := true }) rfl

/-- Claim C8: a failed outbound send does not roll back the state
commit.  `send_message` never lets the exception escape, and the
notification branch of the loop then overwrites prev_verdict and
advances timestamp even when the send failed (delivering nothing). -/
theorem homework_c8_commit_despite_send_failure :
    (∀ (ok : Bool) (m : String), (send_message ok m).2 = none) ∧
    (∀ (st : BotState) (nt : Int) (nv : String), nv ≠ st.prev_verdict →
      notify_branch st nt false nv =
        ({ timestamp := nt, prev_verdict := nv }, [], none)) := by
  constructor
  · intro ok m
    unfold send_message
    split <;> rfl
  · intro st nt nv h
    unfold notify_branch send_message
    simp [bne_iff_ne, h]

/-- Witness for C8: concretely, a novel verdict with a failing send
still commits the new verdict and timestamp while delivering nothing. -/
theorem homework_c8_witness :
    notify_branch { timestamp := 0, prev_verdict := "" } 5 false "Новый вердикт" =
      ({ timestamp := 5, prev_verdict := "Новый вердикт" }, [], none) :=
  homework_c8_commit_despite_send_failure.2
    { timestamp := 0, prev_verdict := "" } 5 "Новый вердикт" (by decide)

/-- Claim C9: when any of the three credentials is absent, `main` exits
with status 1 (sys.exit with a string message) before any network call:
no loop iteration runs and the network-attempt count is zero. -/
theorem homework_c9_missing_credentials_exit (env : Env) (b : Bool)
    (g0 : Globals) (n : Nat) (inps : Nat → IterInput)
    (h : env.practicum_token = none ∨ env.telegram_token = none ∨
      env.telegram_chat_id = none) :
    main_run env b g0 n inps =
      { exitCode := some 1, netCalls := 0, iterations := 0 } := by
  obtain ⟨e, he⟩ := check_tokens_missing env h
  unfold main_run
  rw [he]

/-- Witness for C9: with TELEGRAM_TOKEN unset, the process exits with
status 1, no network attempt is made and no iteration runs. -/
theorem homework_c9_witness :
    main_run { practicum_token := some "a",
               telegram_token := none,
               telegram_chat_id := some "c" }
      true { payload_from_date := 0 } 7
      (fun _ => { now := 0, net := .resp 200 (.ok (.jobj [])), sendOk := true }) =
      { exitCode := some 1, netCalls := 0, iterations := 0 } :=
  homework_c9_missing_credentials_exit _ _ _ _ _ (Or.inr (Or.inl rfl))

/-- Counterexample for claim C10: `get_api_answer` does not leave the
module-level request-parameter dictionary PAYLOAD unchanged — calling it
with checkpoint 123 while PAYLOAD carries from_date 0 mutates the
entry. -/
theorem homework_c10_counterexample :
    (get_api_answer 123 { payload_from_date := 0 } (.exc "x")).1 ≠
      { payload_from_date := 0 } := by decide

/-- Claim C10 as amended: the only program-state effect of
`get_api_answer` beyond the network call is the assignment
PAYLOAD[from_date] = timestamp — after any call the globals hold exactly
the checkpoint argument, whatever they held before and whatever the
network returned. -/
theorem homework_c10_amended (t : Int) (g : Globals) (net : NetResult) :
    (get_api_answer t g net).1 = { payload_from_date := t } := by
  unfold get_api_answer
  cases net with
  | exc m => rfl
  | resp c b =>
      dsimp only
      split
      · rfl
      · cases b <;> rfl

end HomeworkBot
